import Mathlib

/-!
Verification of the Chroma Game Boy emulator core against its specification.

The definitions below are a shallow embedding of the C++ sources:
`src/core/Memory.cpp`, `src/core/memory/MBC.cpp`, `src/core/Timer.cpp`,
`src/gb/core/GameBoy.cpp`, `src/gb/cpu/Cpu.h`, `src/gb/cpu/Ops.cpp` and
`src/emu/ParseOptions.cpp`.  8-bit and 16-bit machine quantities are
represented as `Nat` with explicit masking/mod where the C++ types wrap.
Fixed-size memory arrays (`rom`, `vram`, `wram`, `oam`, `hram`, `wave_ram`)
are represented as total functions `Nat → Nat` (all source accesses to them
are in bounds); `ext_ram` is a `List Nat` because the source consults
`ext_ram.size()` for its bounds checks.
-/

namespace Chroma

/-- Console kind (common/CommonEnums.h): the physical device being emulated. -/
inductive Console where
  | DMG
  | CGB
  | AGB
deriving DecidableEq, Repr

/-- Game mode from the cartridge header: DMG or CGB behaviour. -/
inductive GameMode where
  | DMG
  | CGB
deriving DecidableEq, Repr

/-- Memory bank controller kind (common/CommonEnums.h). -/
inductive MBC where
  | None
  | MBC1
  | MBC2
  | MBC3
  | MBC5
deriving DecidableEq, Repr

/-- OAM DMA state machine states (core/Memory.h, used by Memory.cpp). -/
inductive DMAState where
  | Inactive
  | RegWritten
  | Starting
  | Active
deriving DecidableEq, Repr

/-- The state owned by `Core::Memory` (core/Memory.cpp): memories, I/O
registers, MBC selector state and the OAM DMA engine state. -/
structure Memory where
  console : Console
  game_mode : GameMode
  mbc_mode : MBC
  ext_ram_present : Bool
  rumble_present : Bool
  num_rom_banks : Nat
  -- Memory regions.
  rom : Nat → Nat
  vram : Nat → Nat
  wram : Nat → Nat
  ext_ram : List Nat
  oam : Nat → Nat
  hram : Nat → Nat
  wave_ram : Nat → Nat
  -- I/O registers.
  joypad : Nat
  serial_data : Nat
  serial_control : Nat
  divider : Nat
  timer_counter : Nat
  timer_modulo : Nat
  timer_control : Nat
  interrupt_flags : Nat
  IF_written_this_cycle : Bool
  sweep_mode1 : Nat
  pattern_duty_mode1 : Nat
  envelope_mode1 : Nat
  frequency_lo_mode1 : Nat
  frequency_hi_mode1 : Nat
  pattern_duty_mode2 : Nat
  envelope_mode2 : Nat
  frequency_lo_mode2 : Nat
  frequency_hi_mode2 : Nat
  sound_on_mode3 : Nat
  sound_length_mode3 : Nat
  output_mode3 : Nat
  frequency_lo_mode3 : Nat
  frequency_hi_mode3 : Nat
  sound_length_mode4 : Nat
  envelope_mode4 : Nat
  poly_counter_mode4 : Nat
  counter_mode4 : Nat
  volume : Nat
  sound_select : Nat
  sound_on : Nat
  lcdc : Nat
  stat : Nat
  scroll_y : Nat
  scroll_x : Nat
  ly : Nat
  ly_compare : Nat
  oam_dma_start : Nat
  bg_palette : Nat
  obj_palette0 : Nat
  obj_palette1 : Nat
  window_y : Nat
  window_x : Nat
  speed_switch : Nat
  hdma_source_hi : Nat
  hdma_source_lo : Nat
  hdma_dest_hi : Nat
  hdma_dest_lo : Nat
  hdma_control : Nat
  vram_bank_num : Nat
  wram_bank_num : Nat
  -- MBC selector state.
  rom_bank_num : Nat
  ram_bank_num : Nat
  ext_ram_enabled : Bool
  ram_bank_mode : Bool
  rtc_seconds : Nat
  rtc_minutes : Nat
  rtc_hours : Nat
  rtc_day : Nat
  rtc_flags : Nat
  -- OAM DMA engine.
  state_oam_dma : DMAState
  oam_transfer_addr : Nat
  oam_transfer_byte : Nat
  bytes_read : Nat
  dma_blocking_memory : Bool

namespace Memory

/-- `Memory::ReadIORegisters` (core/Memory.cpp lines 188-361): the I/O
register read switch, including each register's open-bus OR bits. -/
def ReadIORegisters (s : Memory) (addr : Nat) : Nat :=
  if addr = 0xFF00 then s.joypad ||| 0xC0
  else if addr = 0xFF01 then s.serial_data
  else if addr = 0xFF02 then
    s.serial_control ||| (if s.game_mode = GameMode.CGB then 0x7C else 0x7E)
  else if addr = 0xFF04 then s.divider >>> 8
  else if addr = 0xFF05 then s.timer_counter
  else if addr = 0xFF06 then s.timer_modulo
  else if addr = 0xFF07 then s.timer_control ||| 0xF8
  else if addr = 0xFF0F then s.interrupt_flags ||| 0xE0
  else if addr = 0xFF10 then s.sweep_mode1 ||| 0x80
  else if addr = 0xFF11 then s.pattern_duty_mode1 ||| 0x3F
  else if addr = 0xFF12 then s.envelope_mode1
  else if addr = 0xFF13 then s.frequency_lo_mode1
  else if addr = 0xFF14 then s.frequency_hi_mode1 ||| 0xBF
  else if addr = 0xFF16 then s.pattern_duty_mode2 ||| 0x3F
  else if addr = 0xFF17 then s.envelope_mode2
  else if addr = 0xFF18 then s.frequency_lo_mode2
  else if addr = 0xFF19 then s.frequency_hi_mode2 ||| 0xBF
  else if addr = 0xFF1A then s.sound_on_mode3 ||| 0x7F
  else if addr = 0xFF1B then s.sound_length_mode3
  else if addr = 0xFF1C then s.output_mode3 ||| 0x9F
  else if addr = 0xFF1D then s.frequency_lo_mode3
  else if addr = 0xFF1E then s.frequency_hi_mode3 ||| 0xBF
  else if addr = 0xFF20 then s.sound_length_mode4 ||| 0xE0
  else if addr = 0xFF21 then s.envelope_mode4
  else if addr = 0xFF22 then s.poly_counter_mode4
  else if addr = 0xFF23 then s.counter_mode4 ||| 0xBF
  else if addr = 0xFF24 then s.volume
  else if addr = 0xFF25 then s.sound_select
  else if addr = 0xFF26 then s.sound_on ||| 0x70
  else if 0xFF30 ≤ addr ∧ addr ≤ 0xFF3F then s.wave_ram (addr - 0xFF30)
  else if addr = 0xFF40 then s.lcdc
  else if addr = 0xFF41 then s.stat ||| 0x80
  else if addr = 0xFF42 then s.scroll_y
  else if addr = 0xFF43 then s.scroll_x
  else if addr = 0xFF44 then s.ly
  else if addr = 0xFF45 then s.ly_compare
  else if addr = 0xFF46 then s.oam_dma_start
  else if addr = 0xFF47 then s.bg_palette
  else if addr = 0xFF48 then s.obj_palette0
  else if addr = 0xFF49 then s.obj_palette1
  else if addr = 0xFF4A then s.window_y
  else if addr = 0xFF4B then s.window_x
  else if addr = 0xFF4D then
    s.speed_switch ||| (if s.game_mode = GameMode.CGB then 0x7E else 0xFF)
  else if addr = 0xFF55 then
    (if s.game_mode = GameMode.CGB then s.hdma_control else 0xFF)
  else if addr = 0xFF4F then
    (if s.console = Console.CGB then
      (if s.game_mode = GameMode.DMG then 0xFE else s.vram_bank_num ||| 0xFE)
    else 0xFF)
  else if addr = 0xFF70 then
    (if s.game_mode = GameMode.DMG then 0xFF else s.wram_bank_num ||| 0xF8)
  else 0xFF

/-- `Memory::ReadExternalRAM` (core/Memory.cpp lines 671-747; an identical
copy is in core/memory/MBC.cpp lines 21-86). -/
def ReadExternalRAM (s : Memory) (addr : Nat) : Nat :=
  if s.ext_ram_enabled then
    let adjusted_addr := addr - 0xA000 + 0x2000 * s.ram_bank_num
    match s.mbc_mode with
    | MBC.MBC1 =>
        if adjusted_addr < s.ext_ram.length then s.ext_ram.getD adjusted_addr 0 else 0xFF
    | MBC.MBC2 =>
        if adjusted_addr < s.ext_ram.length then s.ext_ram.getD adjusted_addr 0 &&& 0xF0
        else 0xFF
    | MBC.MBC3 =>
        if s.ram_bank_num &&& 0x08 ≠ 0 then
          if s.ram_bank_num = 0x08 then s.rtc_seconds
          else if s.ram_bank_num = 0x09 then s.rtc_minutes
          else if s.ram_bank_num = 0x0A then s.rtc_hours
          else if s.ram_bank_num = 0x0B then s.rtc_day
          else if s.ram_bank_num = 0x0C then s.rtc_flags ||| 0x3E
          else 0xFF
        else
          if adjusted_addr < s.ext_ram.length then s.ext_ram.getD adjusted_addr 0 else 0xFF
    | MBC.MBC5 =>
        let adjusted_addr :=
          if s.rumble_present then addr - 0xA000 + 0x2000 * (s.ram_bank_num &&& 0x07)
          else adjusted_addr
        if adjusted_addr < s.ext_ram.length then s.ext_ram.getD adjusted_addr 0 else 0xFF
    | _ => 0xFF
  else
    0xFF

/-- Index into the switchable ROM bank region, mirroring the C++ expression
`addr + 0x4000*((rom_bank_num % num_rom_banks) - 1)` computed in 32-bit
unsigned arithmetic. -/
def SwitchableRomIndex (s : Memory) (addr : Nat) : Nat :=
  (addr + 0x4000 * ((s.rom_bank_num % s.num_rom_banks + 4294967295) % 4294967296)) %
    4294967296

/-- Index into the switchable WRAM bank region, mirroring
`addr - base + 0x1000*((wram_bank_num == 0) ? 0 : wram_bank_num-1)`. -/
def WramIndex (s : Memory) (addr base : Nat) : Nat :=
  addr - base + 0x1000 * (if s.wram_bank_num = 0 then 0 else s.wram_bank_num - 1)

/-- `Memory::ReadMem8` (core/Memory.cpp lines 68-125): the 8-bit bus read,
including OAM DMA bus blocking and LCD-mode access gating. -/
def ReadMem8 (s : Memory) (addr : Nat) : Nat :=
  if 0xFF00 ≤ addr then
    -- 0xFF00-0xFFFF are still accessible during OAM DMA.
    if addr < 0xFF80 then s.ReadIORegisters addr
    else s.hram (addr - 0xFF80)
  else if !s.dma_blocking_memory then
    if addr < 0x4000 then s.rom addr
    else if addr < 0x8000 then s.rom (s.SwitchableRomIndex addr)
    else if addr < 0xA000 then
      if s.stat &&& 0x03 ≠ 3 then s.vram (addr - 0x8000 + 0x2000 * s.vram_bank_num)
      else 0xFF
    else if addr < 0xC000 then s.ReadExternalRAM addr
    else if addr < 0xD000 then s.wram (addr - 0xC000)
    else if addr < 0xE000 then s.wram (s.WramIndex addr 0xC000)
    else if addr < 0xFE00 then s.wram (s.WramIndex addr 0xE000)
    else if addr < 0xFEA0 then
      if s.stat &&& 0x02 = 0 then s.oam (addr - 0xFE00) else 0xFF
    else 0x00
  else 0xFF

/-- `Memory::WriteIORegisters` (core/Memory.cpp lines 363-593): the I/O
register write switch, including each register's write mask and side
effects (the IF "written this cycle" flag, arming an OAM DMA). -/
def WriteIORegisters (s : Memory) (addr : Nat) (data : Nat) : Memory :=
  if addr = 0xFF00 then { s with joypad := data &&& 0x30 }
  else if addr = 0xFF01 then { s with serial_data := data }
  else if addr = 0xFF02 then
    { s with serial_control :=
        data &&& (if s.game_mode = GameMode.CGB then 0x83 else 0x81) }
  else if addr = 0xFF04 then { s with divider := 0x0000 }
  else if addr = 0xFF05 then { s with timer_counter := data }
  else if addr = 0xFF06 then { s with timer_modulo := data }
  else if addr = 0xFF07 then { s with timer_control := data &&& 0x07 }
  else if addr = 0xFF0F then
    { s with interrupt_flags := data &&& 0x1F, IF_written_this_cycle := true }
  else if addr = 0xFF10 then { s with sweep_mode1 := data &&& 0x7F }
  else if addr = 0xFF11 then { s with pattern_duty_mode1 := data }
  else if addr = 0xFF12 then { s with envelope_mode1 := data }
  else if addr = 0xFF13 then { s with frequency_lo_mode1 := data }
  else if addr = 0xFF14 then { s with frequency_hi_mode1 := data &&& 0xC7 }
  else if addr = 0xFF16 then { s with pattern_duty_mode2 := data }
  else if addr = 0xFF17 then { s with envelope_mode2 := data }
  else if addr = 0xFF18 then { s with frequency_lo_mode2 := data }
  else if addr = 0xFF19 then { s with frequency_hi_mode2 := data &&& 0xC7 }
  else if addr = 0xFF1A then { s with sound_on_mode3 := data &&& 0x80 }
  else if addr = 0xFF1B then { s with sound_length_mode3 := data }
  else if addr = 0xFF1C then { s with output_mode3 := data &&& 0x60 }
  else if addr = 0xFF1D then { s with frequency_lo_mode3 := data }
  else if addr = 0xFF1E then { s with frequency_hi_mode3 := data &&& 0xC7 }
  else if addr = 0xFF20 then { s with sound_length_mode4 := data &&& 0x1F }
  else if addr = 0xFF21 then { s with envelope_mode4 := data }
  else if addr = 0xFF22 then { s with poly_counter_mode4 := data }
  else if addr = 0xFF23 then { s with counter_mode4 := data &&& 0xC0 }
  else if addr = 0xFF24 then { s with volume := data }
  else if addr = 0xFF25 then { s with sound_select := data }
  else if addr = 0xFF26 then { s with sound_on := data &&& 0x8F }
  else if 0xFF30 ≤ addr ∧ addr ≤ 0xFF3F then
    { s with wave_ram := fun i => if i = addr - 0xFF30 then data else s.wave_ram i }
  else if addr = 0xFF40 then { s with lcdc := data }
  else if addr = 0xFF41 then { s with stat := (data &&& 0x78) ||| (s.stat &&& 0x07) }
  else if addr = 0xFF42 then { s with scroll_y := data }
  else if addr = 0xFF43 then { s with scroll_x := data }
  else if addr = 0xFF44 then s  -- LY is read only.
  else if addr = 0xFF45 then { s with ly_compare := data }
  else if addr = 0xFF46 then
    { s with oam_dma_start := data, state_oam_dma := DMAState.RegWritten }
  else if addr = 0xFF47 then { s with bg_palette := data }
  else if addr = 0xFF48 then { s with obj_palette0 := data }
  else if addr = 0xFF49 then { s with obj_palette1 := data }
  else if addr = 0xFF4A then { s with window_y := data }
  else if addr = 0xFF4B then { s with window_x := data }
  else if addr = 0xFF4D then { s with speed_switch := data &&& 0x01 }
  else if addr = 0xFF51 then { s with hdma_source_hi := data }
  else if addr = 0xFF52 then { s with hdma_source_lo := data &&& 0xF0 }
  else if addr = 0xFF53 then { s with hdma_dest_hi := data &&& 0x1F }
  else if addr = 0xFF54 then { s with hdma_dest_lo := data &&& 0xF0 }
  else if addr = 0xFF55 then { s with hdma_control := data }
  else if addr = 0xFF4F then
    (if s.game_mode = GameMode.CGB then { s with vram_bank_num := data &&& 0x01 } else s)
  else if addr = 0xFF70 then
    (if s.game_mode = GameMode.CGB then { s with wram_bank_num := data &&& 0x07 } else s)
  else s

/-- `Memory::WriteExternalRAM` (core/Memory.cpp lines 749-813; an identical
copy is in core/memory/MBC.cpp lines 88-152). -/
def WriteExternalRAM (s : Memory) (addr : Nat) (data : Nat) : Memory :=
  -- Writes are ignored if external RAM is disabled or not present.
  if s.ext_ram_enabled then
    let adjusted_addr := addr - 0xA000 + 0x2000 * s.ram_bank_num
    match s.mbc_mode with
    | MBC.MBC1 =>
        if adjusted_addr < s.ext_ram.length then
          { s with ext_ram := s.ext_ram.set adjusted_addr data }
        else s
    | MBC.MBC2 =>
        -- Only the lower nibble of the bytes in this region are used.
        if adjusted_addr < s.ext_ram.length then
          { s with ext_ram := s.ext_ram.set adjusted_addr (data &&& 0x0F) }
        else s
    | MBC.MBC3 =>
        if s.ram_bank_num &&& 0x08 ≠ 0 then
          if s.ram_bank_num = 0x08 then { s with rtc_seconds := data % 60 }
          else if s.ram_bank_num = 0x09 then { s with rtc_minutes := data % 60 }
          else if s.ram_bank_num = 0x0A then { s with rtc_hours := data % 24 }
          else if s.ram_bank_num = 0x0B then { s with rtc_day := data }
          else if s.ram_bank_num = 0x0C then { s with rtc_flags := data &&& 0xC1 }
          else s
        else
          if adjusted_addr < s.ext_ram.length then
            { s with ext_ram := s.ext_ram.set adjusted_addr data }
          else s
    | MBC.MBC5 =>
        let adjusted_addr :=
          if s.rumble_present then addr - 0xA000 + 0x2000 * (s.ram_bank_num &&& 0x07)
          else adjusted_addr
        if adjusted_addr < s.ext_ram.length then
          { s with ext_ram := s.ext_ram.set adjusted_addr data }
        else s
    | _ => s
  else s

/-- `Memory::WriteMBCControlRegisters` (core/memory/MBC.cpp lines 154-278;
an identical copy is in core/Memory.cpp lines 815-939).  Writes into the
ROM window reprogram the bank controller. -/
def WriteMBCControlRegisters (s : Memory) (addr : Nat) (data : Nat) : Memory :=
  match s.mbc_mode with
  | MBC.MBC1 =>
      if addr < 0x2000 then
        if s.ext_ram_present ∧ data &&& 0x0F = 0x0A then { s with ext_ram_enabled := true }
        else { s with ext_ram_enabled := false }
      else if addr < 0x4000 then
        -- Only the lower 5 bits of the written value are considered.
        let bank := (s.rom_bank_num &&& 0x60) ||| (data &&& 0x1F)
        -- 0x00, 0x20, 0x40, 0x60 all map to 0x01, 0x21, 0x41, 0x61 respectively.
        if bank = 0x00 ∨ bank = 0x20 ∨ bank = 0x40 ∨ bank = 0x60 then
          { s with rom_bank_num := bank + 1 }
        else { s with rom_bank_num := bank }
      else if addr < 0x6000 then
        if s.ram_bank_mode then { s with ram_bank_num := data &&& 0x03 }
        else { s with rom_bank_num := (s.rom_bank_num &&& 0x1F) ||| (data &&& 0x03) <<< 5 }
      else if addr < 0x8000 then
        if data &&& 0x01 ≠ 0 then
          { s with ram_bank_mode := true,
                   ram_bank_num := (s.rom_bank_num &&& 0x60) >>> 5,
                   rom_bank_num := s.rom_bank_num &&& 0x1F }
        else
          { s with ram_bank_mode := false,
                   rom_bank_num := s.rom_bank_num ||| s.ram_bank_num <<< 5,
                   ram_bank_num := 0x00 }
      else s
  | MBC.MBC2 =>
      if addr < 0x2000 then
        -- The least significant bit of the upper address byte must be zero
        -- to enable or disable external ram.
        if addr &&& 0x0100 = 0 then
          if s.ext_ram_present ∧ data &&& 0x0F = 0x0A then { s with ext_ram_enabled := true }
          else { s with ext_ram_enabled := false }
        else s
      else if addr < 0x4000 then
        -- The least significant bit of the upper address byte must be 1 to switch banks.
        if addr &&& 0x0100 ≠ 0 then
          let bank := data &&& 0x0F
          if bank = 0 then { s with rom_bank_num := bank + 1 }
          else { s with rom_bank_num := bank }
        else s
      else s
  | MBC.MBC3 =>
      if addr < 0x2000 then
        if s.ext_ram_present ∧ data &&& 0x0F = 0x0A then { s with ext_ram_enabled := true }
        else { s with ext_ram_enabled := false }
      else if addr < 0x4000 then
        let bank := data &&& 0x7F
        -- Selecting 0x00 will select bank 0x01.
        if bank = 0 then { s with rom_bank_num := bank + 1 }
        else { s with rom_bank_num := bank }
      else if addr < 0x6000 then { s with ram_bank_num := data &&& 0x0F }
      else s  -- Latch RTC data: RTC unimplemented.
  | MBC.MBC5 =>
      if addr < 0x2000 then
        if s.ext_ram_present ∧ data &&& 0x0F = 0x0A then { s with ext_ram_enabled := true }
        else { s with ext_ram_enabled := false }
      else if addr < 0x3000 then
        { s with rom_bank_num := (s.rom_bank_num &&& 0xFF00) ||| data }
      else if addr < 0x4000 then
        { s with rom_bank_num := (s.rom_bank_num &&& 0x00FF) ||| data <<< 8 }
      else if addr < 0x6000 then { s with ram_bank_num := data &&& 0x0F }
      else s
  | _ => s  -- Carts with no MBC ignore writes here.

/-- `Memory::WriteMem8` (core/Memory.cpp lines 134-181): the 8-bit bus
write, including OAM DMA bus blocking and LCD-mode access gating. -/
def WriteMem8 (s : Memory) (addr : Nat) (data : Nat) : Memory :=
  if 0xFF00 ≤ addr then
    -- 0xFF00-0xFFFF are still accessible during OAM DMA.
    if addr < 0xFF80 then s.WriteIORegisters addr data
    else { s with hram := fun i => if i = addr - 0xFF80 then data else s.hram i }
  else if !s.dma_blocking_memory then
    if addr < 0x8000 then s.WriteMBCControlRegisters addr data
    else if addr < 0xA000 then
      if s.stat &&& 0x03 ≠ 3 then
        { s with vram := fun i =>
            if i = addr - 0x8000 + 0x2000 * s.vram_bank_num then data else s.vram i }
      else s
    else if addr < 0xC000 then s.WriteExternalRAM addr data
    else if addr < 0xD000 then
      { s with wram := fun i => if i = addr - 0xC000 then data else s.wram i }
    else if addr < 0xE000 then
      { s with wram := fun i => if i = s.WramIndex addr 0xC000 then data else s.wram i }
    else if addr < 0xFE00 then
      { s with wram := fun i => if i = s.WramIndex addr 0xE000 then data else s.wram i }
    else if addr < 0xFEA0 then
      if s.stat &&& 0x02 = 0 then
        { s with oam := fun i => if i = addr - 0xFE00 then data else s.oam i }
      else s
    else s  -- Unusable region: writes are ignored on pre-CGB devices.
  else s

/-- `Memory::DMACopy` (core/Memory.cpp lines 635-669): the read side of the
OAM DMA engine. -/
def DMACopy (s : Memory) (addr : Nat) : Nat :=
  if addr < 0x4000 then s.rom addr
  else if addr < 0x8000 then s.rom (s.SwitchableRomIndex addr)
  else if addr < 0xA000 then
    if s.stat &&& 0x03 ≠ 3 then s.vram (addr - 0x8000 + 0x2000 * s.vram_bank_num)
    else 0xFF
  else if addr < 0xC000 then s.ReadExternalRAM addr
  else if addr < 0xD000 then s.wram (addr - 0xC000)
  else if addr < 0xE000 then s.wram (s.WramIndex addr 0xC000)
  else if addr < 0xF200 then s.wram (s.WramIndex addr 0xE000)
  else 0xFF

/-- `Memory::UpdateOAM_DMA` (core/Memory.cpp lines 595-633): one machine
cycle of the OAM DMA state machine.  The bus only becomes unblocked when
the DMA state transitions from Active back to Inactive. -/
def UpdateOAM_DMA (s : Memory) : Memory :=
  if s.state_oam_dma = DMAState.RegWritten then
    { s with oam_transfer_addr := s.oam_dma_start <<< 8,
             bytes_read := 0,
             state_oam_dma := DMAState.Starting }
  else if s.state_oam_dma = DMAState.Starting then
    -- No write on the startup cycle.
    { s with oam_transfer_byte := s.DMACopy s.oam_transfer_addr,
             bytes_read := s.bytes_read + 1,
             state_oam_dma := DMAState.Active,
             dma_blocking_memory := true }
  else if s.state_oam_dma = DMAState.Active then
    let written : Memory :=
      if s.stat &&& 0x02 ≠ 1 then
        { s with oam := fun i => if i = s.bytes_read - 1 then s.oam_transfer_byte
                                 else s.oam i }
      else
        { s with oam := fun i => if i = s.bytes_read - 1 then 0xFF else s.oam i }
    if s.bytes_read = 160 then
      -- Don't read on the last cycle.
      { written with state_oam_dma := DMAState.Inactive, dma_blocking_memory := false }
    else
      { written with
          oam_transfer_byte := written.DMACopy (written.oam_transfer_addr + written.bytes_read),
          bytes_read := written.bytes_read + 1 }
  else s

/-- Modelled from the spec: `Memory::IncrementDIV` (declared in the missing
core/Memory.h) advances the 16-bit free-running divider, which "counts one
up per master cycle". -/
def IncrementDIV (s : Memory) (cycles : Nat) : Memory :=
  { s with divider := (s.divider + cycles) % 0x10000 }

/-- Modelled from the spec: `Memory::ReadDIV` (declared in the missing
core/Memory.h) exposes the full 16-bit internal divider to the timer
circuit (Timer.cpp ANDs it against bit masks up to bit 9). -/
def ReadDIV (s : Memory) : Nat :=
  s.divider

/-- Modelled from the spec: `Memory::RequestInterrupt` (declared in the
missing core/Memory.h) sets the requested bit in IF unless software wrote
IF this cycle, per the IF coexistence rule ("the written value wins over
the hardware-set timer bit") and the comment at Timer.cpp line 43. -/
def RequestInterrupt (s : Memory) (bit : Nat) : Memory :=
  if s.IF_written_this_cycle then s
  else { s with interrupt_flags := s.interrupt_flags ||| (1 <<< bit) }

end Memory

/-- Interrupt sources in priority order (V-blank, STAT, Timer, Serial,
Joypad), giving each source its bit index in IE/IF. -/
inductive Interrupt where
  | VBlank
  | Stat
  | Timer
  | Serial
  | Joypad
deriving DecidableEq, Repr

/-- Bit index of an interrupt source in the IF/IE registers. -/
def Interrupt.bit : Interrupt → Nat
  | .VBlank => 0
  | .Stat => 1
  | .Timer => 2
  | .Serial => 3
  | .Joypad => 4

/-- The private state of `Core::Timer` (core/Timer.cpp and the missing
core/Timer.h): the two overflow-sequencing flags and the values remembered
from the previous machine cycle. -/
structure Timer where
  tima_overflow : Bool
  tima_overflow_not_interrupted : Bool
  prev_tima_val : Nat
  prev_tima_inc : Bool

namespace Timer

/-- Modelled from the spec: the `select_div_bit` table (in the missing
core/Timer.h).  "The selected bit is one of {bit 9, 7, 5, 3} chosen by the
two frequency-select bits" -- TAC frequency 0 selects bit 9, 1 selects
bit 3, 2 selects bit 5, 3 selects bit 7 (Timer.cpp lines 51-53). -/
def select_div_bit : Nat → Nat
  | 0 => 0x0200
  | 1 => 0x0008
  | 2 => 0x0020
  | _ => 0x0080

/-- `Timer::TACFrequency` (core/Timer.cpp lines 76-78). -/
def TACFrequency (s : Memory) : Nat :=
  s.ReadMem8 0xFF07 &&& 0x03

/-- `Timer::TACEnable` (core/Timer.cpp lines 80-82). -/
def TACEnable (s : Memory) : Bool :=
  s.ReadMem8 0xFF07 &&& 0x04 ≠ 0

/-- `Timer::TIMAIncWentLow` (core/Timer.cpp lines 84-86): the falling-edge
detector. -/
def TIMAIncWentLow (t : Timer) (tima_inc : Bool) : Bool :=
  !tima_inc && t.prev_tima_inc

/-- `Timer::TIMAWasNotWritten` (core/Timer.cpp lines 88-90): a TIMA write
is detected only by TIMA's value differing from last cycle's value. -/
def TIMAWasNotWritten (t : Timer) (current_tima_val : Nat) : Bool :=
  t.prev_tima_val = current_tima_val

/-- `Timer::LoadTMAIntoTIMA` (core/Timer.cpp lines 92-94). -/
def LoadTMAIntoTIMA (s : Memory) : Memory :=
  s.WriteMem8 0xFF05 (s.ReadMem8 0xFF06)

/-- `Timer::UpdateTimer` (core/Timer.cpp lines 23-74): one machine cycle of
the timer subsystem, including the delayed TMA reload and its abort rule. -/
def UpdateTimer (s₀ : Memory) (t₀ : Timer) : Memory × Timer :=
  -- DIV increments by 1 each clock cycle.
  let s := s₀.IncrementDIV 4
  -- If the TIMA overflow was not interrupted last cycle, write TMA into
  -- TIMA again.
  let st1 : Memory × Timer :=
    if t₀.tima_overflow_not_interrupted then
      (LoadTMAIntoTIMA s, { t₀ with tima_overflow_not_interrupted := false })
    else (s, t₀)
  let s := st1.1
  let t := st1.2
  -- If TIMA overflowed last cycle, and is written to on the one cycle
  -- where it is 0x00, the overflow procedure is aborted.
  let st2 : Memory × Timer :=
    if t.tima_overflow then
      if t.TIMAWasNotWritten (s.ReadMem8 0xFF05) then
        ((LoadTMAIntoTIMA s).RequestInterrupt Interrupt.Timer.bit,
         { t with tima_overflow_not_interrupted := true, tima_overflow := false })
      else
        (s, { t with tima_overflow_not_interrupted := false, tima_overflow := false })
    else (s, t)
  let s := st2.1
  let t := st2.2
  let div_tick_bit : Bool := select_div_bit (TACFrequency s) &&& s.ReadDIV ≠ 0
  let tima_inc : Bool := div_tick_bit && TACEnable s
  let tima_val := s.ReadMem8 0xFF05
  if t.TIMAIncWentLow tima_inc then
    -- When TIMA overflows there is a delay of one machine cycle before it
    -- is loaded with TMA and the timer interrupt is triggered.
    let t := { t with tima_overflow := tima_val = 0xFF }
    let tima_val := (tima_val + 1) % 256
    let s := s.WriteMem8 0xFF05 tima_val
    (s, { t with prev_tima_val := tima_val, prev_tima_inc := tima_inc })
  else
    (s, { t with prev_tima_val := tima_val, prev_tima_inc := tima_inc })

end Timer

/-- One hardware update performed inside `GameBoy::HardwareTick` or
`GameBoy::HaltedTick` (gb/core/GameBoy.cpp), used to record the order in
which the peripherals are driven. -/
inductive TickEvent where
  | enableIrqDelayed
  | oamDma
  | hdma
  | timer
  | serial
  | lcd
  | audio
  | clearIFWritten
deriving DecidableEq, Repr

/-- The sequence of hardware updates one loop iteration of
`GameBoy::HardwareTick` performs (gb/core/GameBoy.cpp lines 141-159): EI
delay, OAM DMA, HDMA, timer, serial, LCD, audio (twice an M-cycle in
single-speed mode), then the clearing of `IF_written_this_cycle`. -/
def machineCycleEvents (double_speed : Bool) : List TickEvent :=
  [TickEvent.enableIrqDelayed, TickEvent.oamDma, TickEvent.hdma, TickEvent.timer,
   TickEvent.serial, TickEvent.lcd] ++
  List.replicate (2 >>> (if double_speed then 1 else 0)) TickEvent.audio ++
  [TickEvent.clearIFWritten]

/-- The sequence of hardware updates one loop iteration of
`GameBoy::HaltedTick` performs (gb/core/GameBoy.cpp lines 163-174). -/
def haltedCycleEvents (double_speed : Bool) : List TickEvent :=
  [TickEvent.timer, TickEvent.serial, TickEvent.lcd] ++
  List.replicate (2 >>> (if double_speed then 1 else 0)) TickEvent.audio

/-- The loop `for (; cycles != 0; cycles -= 4)` shared by
`GameBoy::HardwareTick` and `GameBoy::HaltedTick`: `cycles` is a 32-bit
unsigned count, so the decrement wraps modulo 2^32.  Each iteration emits
`block`.  `fuel` bounds the recursion; `none` means the loop did not
terminate within `fuel` iterations. -/
def tickLoop (block : List TickEvent) : Nat → Nat → Option (List TickEvent)
  | _, 0 => some []
  | 0, _ + 1 => none
  | fuel + 1, c + 1 =>
      (tickLoop block fuel ((c + 1 + 4294967292) % 4294967296)).map
        (fun rest => block ++ rest)

/-- `GameBoy::HardwareTick` (gb/core/GameBoy.cpp lines 140-160), projected
to the sequence of hardware updates it performs. -/
def hardwareTickTrace (double_speed : Bool) (fuel cycles : Nat) : Option (List TickEvent) :=
  tickLoop (machineCycleEvents double_speed) fuel cycles

/-- `GameBoy::HaltedTick` (gb/core/GameBoy.cpp lines 162-175), projected to
the sequence of hardware updates it performs. -/
def haltedTickTrace (double_speed : Bool) (fuel cycles : Nat) : Option (List TickEvent) :=
  tickLoop (haltedCycleEvents double_speed) fuel cycles

/-- The operations of the 8-bit CPU that store to the flag register F:
the four flag setters of gb/cpu/Cpu.h lines 184-187, and the F half of
`Cpu::Pop` on AF (gb/cpu/Ops.cpp lines 84-92), which loads a popped byte
into F and then masks the low nibble.  No other operation in
gb/cpu/Cpu.h / gb/cpu/Ops.cpp writes F. -/
inductive FlagOp where
  | setZero : Bool → FlagOp
  | setSub : Bool → FlagOp
  | setHalf : Bool → FlagOp
  | setCarry : Bool → FlagOp
  | popAF : Nat → FlagOp
deriving DecidableEq, Repr

/-- The effect of one F-writing operation on the 8-bit flag register.
`SetZero`/`SetSub`/`SetHalf`/`SetCarry` OR in or AND out their single
high-nibble bit (`~0x80` etc. on a u8); `Pop(AF)` stores the popped byte
and masks it with 0xF0. -/
def applyFlagOp (f : Nat) : FlagOp → Nat
  | .setZero b => if b then f ||| 0x80 else f &&& 0x7F
  | .setSub b => if b then f ||| 0x40 else f &&& 0xBF
  | .setHalf b => if b then f ||| 0x20 else f &&& 0xDF
  | .setCarry b => if b then f ||| 0x10 else f &&& 0xEF
  | .popAF v => v &&& 0xF0

/-- `Emu::GetOptionParam` (emu/ParseOptions.cpp lines 42-49): find the
first occurrence of `option` in the token list and return the following
token, or "" when absent or last. -/
def GetOptionParam : List String → String → String
  | [], _ => ""
  | [_], _ => ""
  | t :: u :: rest, opt => if t = opt then u else GetOptionParam (u :: rest) opt

/-- `Emu::GetPixelScale` (emu/ParseOptions.cpp lines 100-113) after
`std::stoi` has parsed the `-s` argument to the `int` value `n`:
`unsigned int scale = n` converts modulo 2^32, and only `scale > 15` is
rejected.  `none` models an absent or empty `-s` argument (default 2). -/
def GetPixelScaleFromInt (arg : Option Int) : Except String Nat :=
  match arg with
  | none => Except.ok 2
  | some n =>
      let scale : Nat := (n % 4294967296).toNat
      if 15 < scale then Except.error "Invalid scale value specified"
      else Except.ok scale

/-- `Emu::GetPixelScale` at the token-list level: `stoi` abstracts the C++
`std::stoi` conversion of the argument string. -/
def GetPixelScale (tokens : List String) (stoi : String → Int) : Except String Nat :=
  let scale_string := GetOptionParam tokens "-s"
  if scale_string = "" then Except.ok 2
  else GetPixelScaleFromInt (some (stoi scale_string))

/-! ## Theorems -/

/-- The tick loop `for (; cycles != 0; cycles -= 4)` run on a multiple of 4
(below 2^32) terminates within `k = cycles/4` iterations and emits exactly
`k` copies of its per-iteration block. -/
theorem tickLoop_four_mul (block : List TickEvent) :
    ∀ k : Nat, 4 * k < 4294967296 →
      tickLoop block k (4 * k) = some (List.flatten (List.replicate k block)) := by
  intro k
  induction k with
  | zero => intro _; rfl
  | succ n ih =>
      intro h
      have hn : 4 * n < 4294967296 := by omega
      have harg : 4 * (n + 1) = (4 * n + 3) + 1 := by omega
      have hmod : (4 * n + 3 + 1 + 4294967292) % 4294967296 = 4 * n := by omega
      rw [harg]
      show (tickLoop block n ((4 * n + 3 + 1 + 4294967292) % 4294967296)).map
        (fun rest => block ++ rest) = _
      rw [hmod, ih hn]
      simp [List.replicate_succ]

/-- C1: within each machine cycle of `GameBoy::HardwareTick`, the claimed
peripheral order "Timer, then Serial, then LCD, then Audio, then OAM DMA"
is false: the OAM DMA update runs first, before the timer (and hence
before the audio update). -/
theorem hardwareTick_claimed_order_false :
    ¬ ((machineCycleEvents false).indexOf TickEvent.timer <
         (machineCycleEvents false).indexOf TickEvent.serial ∧
       (machineCycleEvents false).indexOf TickEvent.serial <
         (machineCycleEvents false).indexOf TickEvent.lcd ∧
       (machineCycleEvents false).indexOf TickEvent.lcd <
         (machineCycleEvents false).indexOf TickEvent.audio ∧
       (machineCycleEvents false).indexOf TickEvent.audio <
         (machineCycleEvents false).indexOf TickEvent.oamDma) := by
  decide

/-- C1 (amended): every machine cycle of `GameBoy::HardwareTick` drives
OAM DMA first, then HDMA, then Timer, then Serial, then LCD, then Audio,
and clears the "IF written this cycle" flag only after all of them, as the
final action of the cycle. -/
theorem hardwareTick_update_order (ds : Bool) (k : Nat) (h : 4 * k < 4294967296) :
    hardwareTickTrace ds k (4 * k) =
      some (List.flatten (List.replicate k (machineCycleEvents ds))) ∧
    (machineCycleEvents ds).indexOf TickEvent.oamDma <
      (machineCycleEvents ds).indexOf TickEvent.hdma ∧
    (machineCycleEvents ds).indexOf TickEvent.hdma <
      (machineCycleEvents ds).indexOf TickEvent.timer ∧
    (machineCycleEvents ds).indexOf TickEvent.timer <
      (machineCycleEvents ds).indexOf TickEvent.serial ∧
    (machineCycleEvents ds).indexOf TickEvent.serial <
      (machineCycleEvents ds).indexOf TickEvent.lcd ∧
    (machineCycleEvents ds).indexOf TickEvent.lcd <
      (machineCycleEvents ds).indexOf TickEvent.audio ∧
    (machineCycleEvents ds).indexOf TickEvent.audio <
      (machineCycleEvents ds).indexOf TickEvent.clearIFWritten ∧
    (machineCycleEvents ds).getLast? = some TickEvent.clearIFWritten := by
  refine ⟨tickLoop_four_mul _ k h, ?_⟩
  cases ds <;> decide

/-- C1 witness: the amended order theorem instantiated at two machine
cycles in single-speed mode. -/
theorem hardwareTick_update_order_witness :
    hardwareTickTrace false 2 8 =
      some (List.flatten (List.replicate 2 (machineCycleEvents false))) :=
  (hardwareTick_update_order false 2 (by decide)).1

/-- C10: `GameBoy::HardwareTick(n)` and `GameBoy::HaltedTick(n)` terminate
for every non-negative multiple of 4 (within the 32-bit unsigned range of
`cycles`), performing exactly n/4 iterations of their peripheral-update
loop. -/
theorem hardwareTick_haltedTick_terminate (ds : Bool) (k : Nat)
    (h : 4 * k < 4294967296) :
    hardwareTickTrace ds k (4 * k) =
      some (List.flatten (List.replicate (4 * k / 4) (machineCycleEvents ds))) ∧
    haltedTickTrace ds k (4 * k) =
      some (List.flatten (List.replicate (4 * k / 4) (haltedCycleEvents ds))) := by
  have h4 : 4 * k / 4 = k := Nat.mul_div_cancel_left k (by norm_num)
  rw [h4]
  exact ⟨tickLoop_four_mul _ k h, tickLoop_four_mul _ k h⟩

/-- C10 witness: both tick loops instantiated at n = 12 cycles in
double-speed mode terminate after exactly 3 iterations. -/
theorem hardwareTick_haltedTick_terminate_witness :
    hardwareTickTrace true 3 12 =
      some (List.flatten (List.replicate (12 / 4) (machineCycleEvents true))) :=
  (hardwareTick_haltedTick_terminate true 3 (by decide)).1

/-- A concrete memory state used to instantiate theorems: a DMG console
running an MBC1 cartridge, registers at their DMG reset values. -/
def baseMem : Memory where
  console := Console.DMG
  game_mode := GameMode.DMG
  mbc_mode := MBC.MBC1
  ext_ram_present := true
  rumble_present := false
  num_rom_banks := 2
  rom := fun _ => 0
  vram := fun _ => 0
  wram := fun _ => 0
  ext_ram := List.replicate 0x200 0
  oam := fun _ => 0
  hram := fun _ => 0
  wave_ram := fun _ => 0
  joypad := 0xCF
  serial_data := 0
  serial_control := 0
  divider := 0xABCC
  timer_counter := 0
  timer_modulo := 0
  timer_control := 0
  interrupt_flags := 0
  IF_written_this_cycle := false
  sweep_mode1 := 0
  pattern_duty_mode1 := 0
  envelope_mode1 := 0
  frequency_lo_mode1 := 0
  frequency_hi_mode1 := 0
  pattern_duty_mode2 := 0
  envelope_mode2 := 0
  frequency_lo_mode2 := 0
  frequency_hi_mode2 := 0
  sound_on_mode3 := 0
  sound_length_mode3 := 0
  output_mode3 := 0
  frequency_lo_mode3 := 0
  frequency_hi_mode3 := 0
  sound_length_mode4 := 0
  envelope_mode4 := 0
  poly_counter_mode4 := 0
  counter_mode4 := 0
  volume := 0
  sound_select := 0
  sound_on := 0
  lcdc := 0x91
  stat := 0
  scroll_y := 0
  scroll_x := 0
  ly := 0
  ly_compare := 0
  oam_dma_start := 0
  bg_palette := 0
  obj_palette0 := 0
  obj_palette1 := 0
  window_y := 0
  window_x := 0
  speed_switch := 0
  hdma_source_hi := 0
  hdma_source_lo := 0
  hdma_dest_hi := 0
  hdma_dest_lo := 0
  hdma_control := 0
  vram_bank_num := 0
  wram_bank_num := 0
  rom_bank_num := 1
  ram_bank_num := 0
  ext_ram_enabled := false
  ram_bank_mode := false
  rtc_seconds := 0
  rtc_minutes := 0
  rtc_hours := 0
  rtc_day := 0
  rtc_flags := 0
  state_oam_dma := DMAState.Inactive
  oam_transfer_addr := 0
  oam_transfer_byte := 0
  bytes_read := 0
  dma_blocking_memory := false

set_option maxRecDepth 8000 in
/-- Each flag setter and the POP-AF mask keep a byte-sized F with a zero
low nibble byte-sized with a zero low nibble. -/
theorem applyFlagOp_preserves (f : Nat) (op : FlagOp) (hf : f < 256)
    (h0 : f &&& 0x0F = 0) :
    applyFlagOp f op < 256 ∧ applyFlagOp f op &&& 0x0F = 0 := by
  cases op with
  | setZero b => cases b <;> (revert f; decide)
  | setSub b => cases b <;> (revert f; decide)
  | setHalf b => cases b <;> (revert f; decide)
  | setCarry b => cases b <;> (revert f; decide)
  | popAF v =>
      refine ⟨lt_of_le_of_lt Nat.and_le_right (by norm_num), ?_⟩
      show v &&& 0xF0 &&& 0x0F = 0
      rw [Nat.and_assoc, show (0xF0 &&& 0x0F : Nat) = 0 from rfl]
      exact Nat.and_zero v

/-- C5: the low nibble of the 8-bit CPU flag register F stays zero: the
flag setters of Cpu.h only modify high-nibble bits, POP AF masks the
popped low nibble to zero for any popped byte, and consequently
`F &&& 0x0F = 0` is preserved by any sequence of F-writing operations. -/
theorem cpu_flag_low_nibble_zero :
    (∀ f : Nat, f < 256 → f &&& 0x0F = 0 →
       ∀ ops : List FlagOp, ops.foldl applyFlagOp f &&& 0x0F = 0) ∧
    (∀ f v : Nat, applyFlagOp f (FlagOp.popAF v) &&& 0x0F = 0) := by
  constructor
  · intro f hf h0 ops
    induction ops generalizing f with
    | nil => simpa using h0
    | cons op rest ih =>
        have h := applyFlagOp_preserves f op hf h0
        simpa using ih _ h.1 h.2
  · intro f v
    show v &&& 0xF0 &&& 0x0F = 0
    rw [Nat.and_assoc, show (0xF0 &&& 0x0F : Nat) = 0 from rfl]
    exact Nat.and_zero v

/-- C5 witness: the invariant theorem applied to a concrete flag value and
operation sequence ending in a POP AF of a dirty byte. -/
theorem cpu_flag_low_nibble_zero_witness :
    [FlagOp.setZero true, FlagOp.setCarry false,
     FlagOp.popAF 0xAB].foldl applyFlagOp 0xF0 &&& 0x0F = 0 :=
  cpu_flag_low_nibble_zero.1 0xF0 (by decide) (by decide)
    [FlagOp.setZero true, FlagOp.setCarry false, FlagOp.popAF 0xAB]

/-- C8: `GetPixelScale` accepts `-s 0` and returns scale 0, although the
program's own help text documents the valid range as `-s [1-15]`: only
values above 15 (and, through the unsigned conversion, negative values)
are rejected. -/
theorem getPixelScale_accepts_zero :
    GetPixelScaleFromInt (some 0) = Except.ok 0 ∧
    GetPixelScale ["-s", "0"] (fun _ => 0) = Except.ok 0 := by
  constructor <;> rfl

/-- C7 counterexample: with the MBC1 bank upper bits at 0 (bank 1),
writing 0x20 to the 0x2000-0x3FFF register selects bank 0x01, not the
claimed 0x21: the written value's bit 5 is not transferred, and the
auto-bump applies to the combined bank number. -/
theorem mbc1_rom_bank_claim_false :
    (baseMem.WriteMBCControlRegisters 0x2000 0x20).rom_bank_num = 0x01 ∧
    (baseMem.WriteMBCControlRegisters 0x2000 0x20).rom_bank_num ≠ 0x21 := by
  constructor <;> decide

/-- C7 (amended): an MBC1 write of `v` to 0x2000-0x3FFF replaces the low
5 bits of the ROM bank with `v`'s low 5 bits, preserving the upper 2 bits;
when `v`'s low 5 bits are zero the resulting bank (which is then
0x00/0x20/0x40/0x60, matching the preserved upper bits) is bumped by one,
so its low 5 bits become 0x01; a bank whose low 5 bits are all zero is
never selected by this register. -/
theorem mbc1_rom_bank_write (s : Memory) (a v : Nat) (hm : s.mbc_mode = MBC.MBC1)
    (h1 : 0x2000 ≤ a) (h2 : a < 0x4000) :
    ((s.WriteMBCControlRegisters a v).rom_bank_num =
        if v &&& 0x1F = 0 then (s.rom_bank_num &&& 0x60) ||| 0x01
        else (s.rom_bank_num &&& 0x60) ||| (v &&& 0x1F)) ∧
    (s.WriteMBCControlRegisters a v).rom_bank_num &&& 0x1F ≠ 0 ∧
    (s.WriteMBCControlRegisters a v).rom_bank_num &&& 0x60 = s.rom_bank_num &&& 0x60 := by
  have ha : ¬ a < 0x2000 := by omega
  have hA96 : s.rom_bank_num &&& 0x60 ≤ 0x60 := Nat.and_le_right
  have hA0 : (s.rom_bank_num &&& 0x60) &&& 0x1F = 0 := by
    rw [Nat.and_assoc, show (0x60 &&& 0x1F : Nat) = 0 from rfl]
    exact Nat.and_zero _
  have hB : v &&& 0x1F < 32 := lt_of_le_of_lt Nat.and_le_right (by norm_num)
  have hcases : ∀ x < 97, x &&& 0x1F = 0 → x = 0 ∨ x = 0x20 ∨ x = 0x40 ∨ x = 0x60 := by
    decide
  simp only [Memory.WriteMBCControlRegisters, hm]
  rw [if_neg ha, if_pos h2]
  generalize hgb : v &&& 0x1F = b at hB ⊢
  rcases hcases _ (by omega) hA0 with hA | hA | hA | hA <;> rw [hA] <;>
    interval_cases b <;> simp <;> decide

/-- C7 witness: the amended bank-write theorem instantiated at the
counterexample input (write 0x20 with upper bank bits 0). -/
theorem mbc1_rom_bank_write_witness :
    (baseMem.WriteMBCControlRegisters 0x2000 0x20).rom_bank_num =
      if (0x20 &&& 0x1F : Nat) = 0 then (baseMem.rom_bank_num &&& 0x60) ||| 0x01
      else (baseMem.rom_bank_num &&& 0x60) ||| (0x20 &&& 0x1F) :=
  (mbc1_rom_bank_write baseMem 0x2000 0x20 rfl (by norm_num) (by norm_num)).1

/-- `List.getD` after `List.set` at the same in-bounds index returns the
value just stored. -/
theorem getD_set_self : ∀ (l : List Nat) (i x : Nat), i < l.length →
    (l.set i x).getD i 0 = x := by
  intro l
  induction l with
  | nil => intro i x h; simp at h
  | cons hd tl ih =>
      intro i x h
      cases i with
      | zero => rfl
      | succ n => simpa using ih n x (by simpa using h)

/-- A concrete MBC2 memory state with external RAM enabled. -/
def mbc2Mem : Memory :=
  { baseMem with mbc_mode := MBC.MBC2, ext_ram_enabled := true }

/-- C9: on MBC2 with external RAM enabled and an in-range address in
0xA000-0xA1FF, `WriteExternalRAM` stores `data &&& 0x0F`,
`ReadExternalRAM` returns the stored byte masked with 0xF0, and hence a
write followed by a read of the same address returns 0x00. -/
theorem mbc2_ram_write_read (s : Memory) (a d : Nat)
    (hm : s.mbc_mode = MBC.MBC2) (he : s.ext_ram_enabled = true)
    (hb : s.ram_bank_num = 0) (ha1 : 0xA000 ≤ a) (ha2 : a < 0xA200)
    (hlen : a - 0xA000 < s.ext_ram.length) :
    ((s.WriteExternalRAM a d).ext_ram.getD (a - 0xA000) 0 = d &&& 0x0F) ∧
    ((s.WriteExternalRAM a d).ReadExternalRAM a = (d &&& 0x0F) &&& 0xF0) ∧
    ((s.WriteExternalRAM a d).ReadExternalRAM a = 0) := by
  have hidx : a - 0xA000 + 0x2000 * s.ram_bank_num = a - 0xA000 := by
    rw [hb]; omega
  have hw : s.WriteExternalRAM a d =
      { s with ext_ram := s.ext_ram.set (a - 0xA000) (d &&& 0x0F) } := by
    simp only [Memory.WriteExternalRAM, he, hm]
    rw [hidx, if_pos hlen]
    simp
  have hzero : (d &&& 0x0F) &&& 0xF0 = 0 := by
    rw [Nat.and_assoc, show (0x0F &&& 0xF0 : Nat) = 0 from rfl]
    exact Nat.and_zero d
  have hread : (s.WriteExternalRAM a d).ReadExternalRAM a = (d &&& 0x0F) &&& 0xF0 := by
    rw [hw]
    simp only [Memory.ReadExternalRAM, he, hm, hb]
    rw [show a - 0xA000 + 0x2000 * 0 = a - 0xA000 by omega]
    simp only [List.length_set]
    rw [if_pos hlen, getD_set_self _ _ _ hlen]
    simp
  refine ⟨?_, hread, ?_⟩
  · rw [hw]
    exact getD_set_self _ _ _ hlen
  · rw [hread]
    exact hzero

/-- C9 witness: the MBC2 write/read law at a concrete state and address. -/
theorem mbc2_ram_write_read_witness :
    (mbc2Mem.WriteExternalRAM 0xA003 0xAB).ReadExternalRAM 0xA003 = 0 :=
  (mbc2_ram_write_read mbc2Mem 0xA003 0xAB rfl rfl rfl (by norm_num) (by norm_num)
    (by rw [show mbc2Mem.ext_ram = List.replicate 0x200 0 from rfl,
            List.length_replicate]
        norm_num)).2.2

/-- `WriteIORegisters` never touches the memory arrays, the MBC selector
state, or the DMA bus-blocking flag. -/
theorem WriteIORegisters_frame (s : Memory) (a d : Nat) :
    (s.WriteIORegisters a d).rom = s.rom ∧
    (s.WriteIORegisters a d).vram = s.vram ∧
    (s.WriteIORegisters a d).wram = s.wram ∧
    (s.WriteIORegisters a d).ext_ram = s.ext_ram ∧
    (s.WriteIORegisters a d).oam = s.oam ∧
    (s.WriteIORegisters a d).hram = s.hram ∧
    (s.WriteIORegisters a d).rom_bank_num = s.rom_bank_num ∧
    (s.WriteIORegisters a d).ram_bank_num = s.ram_bank_num ∧
    (s.WriteIORegisters a d).ext_ram_enabled = s.ext_ram_enabled ∧
    (s.WriteIORegisters a d).ram_bank_mode = s.ram_bank_mode ∧
    (s.WriteIORegisters a d).dma_blocking_memory = s.dma_blocking_memory := by
  refine ⟨?_, ?_, ?_, ?_, ?_, ?_, ?_, ?_, ?_, ?_, ?_⟩ <;>
    (unfold Memory.WriteIORegisters
     simp only [apply_ite Memory.rom, apply_ite Memory.vram, apply_ite Memory.wram,
       apply_ite Memory.ext_ram, apply_ite Memory.oam, apply_ite Memory.hram,
       apply_ite Memory.rom_bank_num, apply_ite Memory.ram_bank_num,
       apply_ite Memory.ext_ram_enabled, apply_ite Memory.ram_bank_mode,
       apply_ite Memory.dma_blocking_memory, ite_self])

set_option maxHeartbeats 2000000 in
/-- `WriteExternalRAM` never touches the other memory arrays, the MBC
selector state, the DMA engine state or the bus-blocking flag. -/
theorem WriteExternalRAM_frame (s : Memory) (a d : Nat) :
    (s.WriteExternalRAM a d).rom = s.rom ∧
    (s.WriteExternalRAM a d).vram = s.vram ∧
    (s.WriteExternalRAM a d).wram = s.wram ∧
    (s.WriteExternalRAM a d).oam = s.oam ∧
    (s.WriteExternalRAM a d).hram = s.hram ∧
    (s.WriteExternalRAM a d).rom_bank_num = s.rom_bank_num ∧
    (s.WriteExternalRAM a d).ram_bank_num = s.ram_bank_num ∧
    (s.WriteExternalRAM a d).ext_ram_enabled = s.ext_ram_enabled ∧
    (s.WriteExternalRAM a d).ram_bank_mode = s.ram_bank_mode ∧
    (s.WriteExternalRAM a d).dma_blocking_memory = s.dma_blocking_memory := by
  refine ⟨?_, ?_, ?_, ?_, ?_, ?_, ?_, ?_, ?_, ?_⟩ <;>
    (unfold Memory.WriteExternalRAM; dsimp only; repeat' split) <;> rfl

/-- When external RAM is disabled, `WriteExternalRAM` is a no-op. -/
theorem WriteExternalRAM_disabled (s : Memory) (a d : Nat)
    (h : s.ext_ram_enabled = false) : s.WriteExternalRAM a d = s := by
  unfold Memory.WriteExternalRAM
  rw [h, if_neg Bool.false_ne_true]

/-- `s'` differs from `s` at most in the four MBC selector registers. -/
def MbcOnlyChange (s s' : Memory) : Prop :=
  s' = { s with ext_ram_enabled := s'.ext_ram_enabled,
                rom_bank_num := s'.rom_bank_num,
                ram_bank_num := s'.ram_bank_num,
                ram_bank_mode := s'.ram_bank_mode }

/-- `WriteMBCControlRegisters` only reprograms the MBC selector registers:
every other field of the state is untouched. -/
theorem WriteMBCControlRegisters_mbcOnly (s : Memory) (a d : Nat) :
    MbcOnlyChange s (s.WriteMBCControlRegisters a d) := by
  unfold MbcOnlyChange Memory.WriteMBCControlRegisters
  dsimp only
  repeat' split
  all_goals rfl

/-- A state related by `MbcOnlyChange` keeps every memory array, the DMA
flag and the LCD status unchanged. -/
theorem MbcOnlyChange.frame {s s' : Memory} (h : MbcOnlyChange s s') :
    s'.rom = s.rom ∧ s'.vram = s.vram ∧ s'.wram = s.wram ∧ s'.ext_ram = s.ext_ram ∧
    s'.oam = s.oam ∧ s'.hram = s.hram ∧ s'.wave_ram = s.wave_ram ∧
    s'.dma_blocking_memory = s.dma_blocking_memory := by
  unfold MbcOnlyChange at h
  rw [h]
  exact ⟨rfl, rfl, rfl, rfl, rfl, rfl, rfl, rfl⟩

/-- C6: no 8-bit CPU write ever modifies the ROM image; writes into the
ROM window 0x0000-0x7FFF at most reprogram the four MBC selector
registers; external cartridge RAM is modified only when `ext_ram_enabled`
is true, and while it is false writes to 0xA000-0xBFFF leave the whole
memory state unchanged and reads of that region return 0xFF. -/
theorem rom_never_written_ext_ram_gated (s : Memory) (a d : Nat) :
    (s.WriteMem8 a d).rom = s.rom ∧
    (s.ext_ram_enabled = false → (s.WriteMem8 a d).ext_ram = s.ext_ram) ∧
    (a < 0x8000 → MbcOnlyChange s (s.WriteMem8 a d)) ∧
    (s.ext_ram_enabled = false → 0xA000 ≤ a → a < 0xC000 → s.WriteMem8 a d = s) ∧
    (s.ext_ram_enabled = false → 0xA000 ≤ a → a < 0xC000 → s.ReadMem8 a = 0xFF) := by
  refine ⟨?_, ?_, ?_, ?_, ?_⟩
  · unfold Memory.WriteMem8
    simp only [apply_ite Memory.rom, (WriteIORegisters_frame s a d).1,
      (WriteExternalRAM_frame s a d).1,
      (WriteMBCControlRegisters_mbcOnly s a d).frame.1, ite_self]
  · intro hdis
    unfold Memory.WriteMem8
    simp only [apply_ite Memory.ext_ram, (WriteIORegisters_frame s a d).2.2.2.1,
      WriteExternalRAM_disabled s a d hdis,
      (WriteMBCControlRegisters_mbcOnly s a d).frame.2.2.2.1, ite_self]
  · intro ha
    unfold Memory.WriteMem8
    rw [if_neg (by omega : ¬ 0xFF00 ≤ a)]
    by_cases hb : s.dma_blocking_memory
    · rw [hb]
      simp only [Bool.not_true]
      rw [if_neg Bool.false_ne_true]
      unfold MbcOnlyChange
      rfl
    · simp only [Bool.not_eq_true] at hb
      rw [hb]
      simp only [Bool.not_false, if_true]
      rw [if_pos ha]
      exact WriteMBCControlRegisters_mbcOnly s a d
  · intro hdis ha1 ha2
    unfold Memory.WriteMem8
    rw [if_neg (by omega : ¬ 0xFF00 ≤ a)]
    by_cases hb : s.dma_blocking_memory
    · rw [hb]
      simp only [Bool.not_true]
      rw [if_neg Bool.false_ne_true]
    · simp only [Bool.not_eq_true] at hb
      rw [hb]
      simp only [Bool.not_false, if_true]
      rw [if_neg (by omega : ¬ a < 0x8000),
          if_neg (by omega : ¬ a < 0xA000), if_pos ha2]
      exact WriteExternalRAM_disabled s a d hdis
  · intro hdis ha1 ha2
    unfold Memory.ReadMem8
    rw [if_neg (by omega : ¬ 0xFF00 ≤ a)]
    by_cases hb : s.dma_blocking_memory
    · rw [hb]
      simp only [Bool.not_true]
      rw [if_neg Bool.false_ne_true]
    · simp only [Bool.not_eq_true] at hb
      rw [hb]
      simp only [Bool.not_false, if_true]
      rw [if_neg (by omega : ¬ a < 0x4000),
          if_neg (by omega : ¬ a < 0x8000), if_neg (by omega : ¬ a < 0xA000),
          if_pos ha2]
      unfold Memory.ReadExternalRAM
      rw [hdis, if_neg Bool.false_ne_true]

/-- C6 witness: with external RAM disabled, a write to 0xA123 is a no-op
and a read of 0xA123 returns 0xFF; a write into the ROM window leaves the
ROM image unchanged. -/
theorem rom_never_written_ext_ram_gated_witness :
    baseMem.WriteMem8 0xA123 0x55 = baseMem ∧
    baseMem.ReadMem8 0xA123 = 0xFF ∧
    (baseMem.WriteMem8 0x2000 0x07).rom = baseMem.rom :=
  ⟨(rom_never_written_ext_ram_gated baseMem 0xA123 0x55).2.2.2.1 rfl (by norm_num)
      (by norm_num),
   (rom_never_written_ext_ram_gated baseMem 0xA123 0x55).2.2.2.2 rfl (by norm_num)
      (by norm_num),
   (rom_never_written_ext_ram_gated baseMem 0x2000 0x07).1⟩

set_option maxHeartbeats 4000000 in
/-- An I/O register write has the same effect whether or not the OAM DMA
bus-blocking flag is set: `WriteIORegisters` never consults or changes
`dma_blocking_memory` beyond carrying it through. -/
theorem WriteIORegisters_dma_comm (s : Memory) (a d : Nat) (b : Bool) :
    Memory.WriteIORegisters { s with dma_blocking_memory := b } a d =
      { s.WriteIORegisters a d with dma_blocking_memory := b } := by
  unfold Memory.WriteIORegisters
  by_cases h0 : a = 0xFF00
  · subst h0; rfl
  rw [if_neg h0, if_neg h0]
  by_cases h1 : a = 0xFF01
  · subst h1; rfl
  rw [if_neg h1, if_neg h1]
  by_cases h2 : a = 0xFF02
  · subst h2; rfl
  rw [if_neg h2, if_neg h2]
  by_cases h3 : a = 0xFF04
  · subst h3; rfl
  rw [if_neg h3, if_neg h3]
  by_cases h4 : a = 0xFF05
  · subst h4; rfl
  rw [if_neg h4, if_neg h4]
  by_cases h5 : a = 0xFF06
  · subst h5; rfl
  rw [if_neg h5, if_neg h5]
  by_cases h6 : a = 0xFF07
  · subst h6; rfl
  rw [if_neg h6, if_neg h6]
  by_cases h7 : a = 0xFF0F
  · subst h7; rfl
  rw [if_neg h7, if_neg h7]
  by_cases h8 : a = 0xFF10
  · subst h8; rfl
  rw [if_neg h8, if_neg h8]
  by_cases h9 : a = 0xFF11
  · subst h9; rfl
  rw [if_neg h9, if_neg h9]
  by_cases h10 : a = 0xFF12
  · subst h10; rfl
  rw [if_neg h10, if_neg h10]
  by_cases h11 : a = 0xFF13
  · subst h11; rfl
  rw [if_neg h11, if_neg h11]
  by_cases h12 : a = 0xFF14
  · subst h12; rfl
  rw [if_neg h12, if_neg h12]
  by_cases h13 : a = 0xFF16
  · subst h13; rfl
  rw [if_neg h13, if_neg h13]
  by_cases h14 : a = 0xFF17
  · subst h14; rfl
  rw [if_neg h14, if_neg h14]
  by_cases h15 : a = 0xFF18
  · subst h15; rfl
  rw [if_neg h15, if_neg h15]
  by_cases h16 : a = 0xFF19
  · subst h16; rfl
  rw [if_neg h16, if_neg h16]
  by_cases h17 : a = 0xFF1A
  · subst h17; rfl
  rw [if_neg h17, if_neg h17]
  by_cases h18 : a = 0xFF1B
  · subst h18; rfl
  rw [if_neg h18, if_neg h18]
  by_cases h19 : a = 0xFF1C
  · subst h19; rfl
  rw [if_neg h19, if_neg h19]
  by_cases h20 : a = 0xFF1D
  · subst h20; rfl
  rw [if_neg h20, if_neg h20]
  by_cases h21 : a = 0xFF1E
  · subst h21; rfl
  rw [if_neg h21, if_neg h21]
  by_cases h22 : a = 0xFF20
  · subst h22; rfl
  rw [if_neg h22, if_neg h22]
  by_cases h23 : a = 0xFF21
  · subst h23; rfl
  rw [if_neg h23, if_neg h23]
  by_cases h24 : a = 0xFF22
  · subst h24; rfl
  rw [if_neg h24, if_neg h24]
  by_cases h25 : a = 0xFF23
  · subst h25; rfl
  rw [if_neg h25, if_neg h25]
  by_cases h26 : a = 0xFF24
  · subst h26; rfl
  rw [if_neg h26, if_neg h26]
  by_cases h27 : a = 0xFF25
  · subst h27; rfl
  rw [if_neg h27, if_neg h27]
  by_cases h28 : a = 0xFF26
  · subst h28; rfl
  rw [if_neg h28, if_neg h28]
  by_cases hwav : 0xFF30 ≤ a ∧ a ≤ 0xFF3F
  · rw [if_pos hwav, if_pos hwav]
  rw [if_neg hwav, if_neg hwav]
  by_cases h29 : a = 0xFF40
  · subst h29; rfl
  rw [if_neg h29, if_neg h29]
  by_cases h30 : a = 0xFF41
  · subst h30; rfl
  rw [if_neg h30, if_neg h30]
  by_cases h31 : a = 0xFF42
  · subst h31; rfl
  rw [if_neg h31, if_neg h31]
  by_cases h32 : a = 0xFF43
  · subst h32; rfl
  rw [if_neg h32, if_neg h32]
  by_cases h33 : a = 0xFF44
  · subst h33; rfl
  rw [if_neg h33, if_neg h33]
  by_cases h34 : a = 0xFF45
  · subst h34; rfl
  rw [if_neg h34, if_neg h34]
  by_cases h35 : a = 0xFF46
  · subst h35; rfl
  rw [if_neg h35, if_neg h35]
  by_cases h36 : a = 0xFF47
  · subst h36; rfl
  rw [if_neg h36, if_neg h36]
  by_cases h37 : a = 0xFF48
  · subst h37; rfl
  rw [if_neg h37, if_neg h37]
  by_cases h38 : a = 0xFF49
  · subst h38; rfl
  rw [if_neg h38, if_neg h38]
  by_cases h39 : a = 0xFF4A
  · subst h39; rfl
  rw [if_neg h39, if_neg h39]
  by_cases h40 : a = 0xFF4B
  · subst h40; rfl
  rw [if_neg h40, if_neg h40]
  by_cases h41 : a = 0xFF4D
  · subst h41; rfl
  rw [if_neg h41, if_neg h41]
  by_cases h42 : a = 0xFF51
  · subst h42; rfl
  rw [if_neg h42, if_neg h42]
  by_cases h43 : a = 0xFF52
  · subst h43; rfl
  rw [if_neg h43, if_neg h43]
  by_cases h44 : a = 0xFF53
  · subst h44; rfl
  rw [if_neg h44, if_neg h44]
  by_cases h45 : a = 0xFF54
  · subst h45; rfl
  rw [if_neg h45, if_neg h45]
  by_cases h46 : a = 0xFF55
  · subst h46; rfl
  rw [if_neg h46, if_neg h46]
  by_cases hvbk : a = 0xFF4F
  · subst hvbk
    dsimp only
    by_cases hg : s.game_mode = GameMode.CGB
    · simp only [if_pos hg]
      rfl
    · simp only [if_neg hg]
      rfl
  rw [if_neg hvbk, if_neg hvbk]
  by_cases hsvb : a = 0xFF70
  · subst hsvb
    dsimp only
    by_cases hg : s.game_mode = GameMode.CGB
    · simp only [if_pos hg]
      rfl
    · simp only [if_neg hg]
      rfl
  rw [if_neg hsvb, if_neg hsvb]

/-- An I/O register or HRAM read has the same result whether or not the
OAM DMA bus-blocking flag is set. -/
theorem ReadMem8_dma_comm (s : Memory) (a : Nat) (b : Bool) (ha : 0xFF00 ≤ a) :
    Memory.ReadMem8 { s with dma_blocking_memory := b } a = s.ReadMem8 a := by
  unfold Memory.ReadMem8
  rw [if_pos ha, if_pos ha]
  rfl

/-- The bus-blocking flag across one step of the OAM DMA state machine:
it is raised at the Starting→Active transition, and once raised it stays
raised unless the step lands in Inactive (the Active→Inactive finish,
which lowers it). -/
theorem UpdateOAM_DMA_blocking (s : Memory) :
    (s.state_oam_dma = DMAState.Starting →
       s.UpdateOAM_DMA.dma_blocking_memory = true ∧
       s.UpdateOAM_DMA.state_oam_dma = DMAState.Active) ∧
    (s.dma_blocking_memory = true →
       s.UpdateOAM_DMA.dma_blocking_memory = true ∨
       s.UpdateOAM_DMA.state_oam_dma = DMAState.Inactive) := by
  constructor
  · intro h
    unfold Memory.UpdateOAM_DMA
    rw [h, if_neg (by decide : ¬ (DMAState.Starting = DMAState.RegWritten)),
        if_pos rfl]
    exact ⟨rfl, rfl⟩
  · intro hb
    cases hsd : s.state_oam_dma with
    | Inactive =>
        left
        unfold Memory.UpdateOAM_DMA
        rw [hsd, if_neg (by decide : ¬ (DMAState.Inactive = DMAState.RegWritten)),
            if_neg (by decide : ¬ (DMAState.Inactive = DMAState.Starting)),
            if_neg (by decide : ¬ (DMAState.Inactive = DMAState.Active))]
        exact hb
    | RegWritten =>
        left
        unfold Memory.UpdateOAM_DMA
        rw [hsd, if_pos rfl]
        exact hb
    | Starting =>
        left
        unfold Memory.UpdateOAM_DMA
        rw [hsd, if_neg (by decide : ¬ (DMAState.Starting = DMAState.RegWritten)),
            if_pos rfl]
    | Active =>
        unfold Memory.UpdateOAM_DMA
        rw [hsd, if_neg (by decide : ¬ (DMAState.Active = DMAState.RegWritten)),
            if_neg (by decide : ¬ (DMAState.Active = DMAState.Starting)),
            if_pos rfl]
        dsimp only
        by_cases h160 : s.bytes_read = 160
        · right
          rw [if_pos h160]
        · left
          rw [if_neg h160]
          simp only [apply_ite Memory.dma_blocking_memory, ite_self]
          exact hb

/-- `WriteMem8` never changes the bus-blocking flag: in particular,
restarting a DMA by writing 0xFF46 while one is active leaves the bus
blocked across the Active→RegWritten transition. -/
theorem WriteMem8_dma_flag (s : Memory) (a d : Nat) :
    (s.WriteMem8 a d).dma_blocking_memory = s.dma_blocking_memory := by
  unfold Memory.WriteMem8
  simp only [apply_ite Memory.dma_blocking_memory,
    (WriteIORegisters_frame s a d).2.2.2.2.2.2.2.2.2.2,
    (WriteExternalRAM_frame s a d).2.2.2.2.2.2.2.2.2,
    (WriteMBCControlRegisters_mbcOnly s a d).frame.2.2.2.2.2.2.2, ite_self]

/-- A bus write into the window 0xFF00-0xFFFF has the same effect whether
or not the bus-blocking flag is set. -/
theorem WriteMem8_window_comm (s : Memory) (a d : Nat) (b : Bool)
    (ha : 0xFF00 ≤ a) :
    Memory.WriteMem8 { s with dma_blocking_memory := b } a d =
      { s.WriteMem8 a d with dma_blocking_memory := b } := by
  unfold Memory.WriteMem8
  rw [if_pos ha, if_pos ha]
  by_cases h80 : a < 0xFF80
  · rw [if_pos h80, if_pos h80]
    exact WriteIORegisters_dma_comm s a d b
  · rw [if_neg h80, if_neg h80]

/-- C2: while the OAM DMA engine blocks the external bus (the flag raised
at the Starting→Active transition, kept raised until the engine returns to
Inactive, and unaffected by any bus write, including the 0xFF46 restart
write), every 8-bit read below 0xFF00 returns 0xFF and every 8-bit write
below 0xFF00 is discarded, while reads and writes in 0xFF00-0xFFFF are
unaffected by the blocking flag. -/
theorem oam_dma_bus_blocking (s : Memory) (a d : Nat) (b : Bool) :
    (s.dma_blocking_memory = true → a < 0xFF00 →
        s.ReadMem8 a = 0xFF ∧ s.WriteMem8 a d = s) ∧
    (0xFF00 ≤ a →
        Memory.ReadMem8 { s with dma_blocking_memory := b } a = s.ReadMem8 a ∧
        Memory.WriteMem8 { s with dma_blocking_memory := b } a d =
          { s.WriteMem8 a d with dma_blocking_memory := b }) ∧
    (s.state_oam_dma = DMAState.Starting →
        s.UpdateOAM_DMA.dma_blocking_memory = true ∧
        s.UpdateOAM_DMA.state_oam_dma = DMAState.Active) ∧
    (s.dma_blocking_memory = true →
        s.UpdateOAM_DMA.dma_blocking_memory = true ∨
        s.UpdateOAM_DMA.state_oam_dma = DMAState.Inactive) ∧
    (s.WriteMem8 a d).dma_blocking_memory = s.dma_blocking_memory := by
  refine ⟨?_,
    fun ha => ⟨ReadMem8_dma_comm s a b ha, WriteMem8_window_comm s a d b ha⟩,
    (UpdateOAM_DMA_blocking s).1, (UpdateOAM_DMA_blocking s).2,
    WriteMem8_dma_flag s a d⟩
  intro hb ha
  constructor
  · unfold Memory.ReadMem8
    rw [if_neg (by omega : ¬ 0xFF00 ≤ a), hb]
    simp only [Bool.not_true]
    rw [if_neg Bool.false_ne_true]
  · unfold Memory.WriteMem8
    rw [if_neg (by omega : ¬ 0xFF00 ≤ a), hb]
    simp only [Bool.not_true]
    rw [if_neg Bool.false_ne_true]

/-- A concrete memory state in the middle of an Active OAM DMA with the
external bus blocked. -/
def blockedMem : Memory :=
  { baseMem with dma_blocking_memory := true,
                 state_oam_dma := DMAState.Active,
                 bytes_read := 5 }

/-- C2 witness: with the DMA active and the bus blocked, a read of 0x1234
returns 0xFF and a write there is discarded, while an HRAM read at 0xFF85
is unaffected by the blocking flag. -/
theorem oam_dma_bus_blocking_witness :
    blockedMem.ReadMem8 0x1234 = 0xFF ∧
    blockedMem.WriteMem8 0x1234 0x42 = blockedMem ∧
    Memory.ReadMem8 { blockedMem with dma_blocking_memory := false } 0xFF85 =
      blockedMem.ReadMem8 0xFF85 :=
  ⟨((oam_dma_bus_blocking blockedMem 0x1234 0x42 false).1 rfl (by norm_num)).1,
   ((oam_dma_bus_blocking blockedMem 0x1234 0x42 false).1 rfl (by norm_num)).2,
   ((oam_dma_bus_blocking blockedMem 0xFF85 0 false).2.1 (by norm_num)).1⟩

/-- A concrete memory state one cycle after a TIMA 0xFF→0x00 wrap: TIMA
holds 0x00, TMA holds 0x42, the timer is disabled in TAC so no further
falling edge occurs this cycle. -/
def overflowMem : Memory :=
  { baseMem with timer_counter := 0x00, timer_modulo := 0x42, timer_control := 0 }

/-- The timer-subsystem state one cycle after a TIMA 0xFF→0x00 wrap:
`tima_overflow` pending, previous TIMA value 0x00. -/
def overflowTimer : Timer :=
  { tima_overflow := true, tima_overflow_not_interrupted := false,
    prev_tima_val := 0x00, prev_tima_inc := false }

set_option maxRecDepth 8000 in
/-- C3 counterexample: software writes the value 0x00 to TIMA during the
0x00-holding cycle, yet on the next `UpdateTimer` the TMA reload still
happens (TIMA becomes 0x42) and the timer interrupt is still requested:
a write of the value TIMA already holds is not detected, so the claimed
cancellation ("any value, including 0x00") does not occur. -/
theorem tima_write_zero_not_cancelled :
    (overflowMem.WriteMem8 0xFF05 0x00).ReadMem8 0xFF05 = 0x00 ∧
    (Timer.UpdateTimer (overflowMem.WriteMem8 0xFF05 0x00) overflowTimer).1.timer_counter
      = 0x42 ∧
    (Timer.UpdateTimer (overflowMem.WriteMem8 0xFF05 0x00) overflowTimer).1.interrupt_flags
      &&& 0x04 = 0x04 := by
  refine ⟨rfl, ?_, ?_⟩ <;> decide

/-- C3 (amended): when TIMA wraps from 0xFF to 0x00, on the next cycle TMA
is loaded into TIMA and the timer interrupt is requested, unless software
wrote a value different from 0x00 to TIMA during the 0x00-holding cycle
(the write is detected by TIMA's value differing from the remembered
previous value, so a write of 0x00 goes undetected), in which case both
the TMA reload and the interrupt request are cancelled. -/
theorem tima_overflow_reload (s : Memory) (t : Timer)
    (hov : t.tima_overflow = true)
    (hni : t.tima_overflow_not_interrupted = false)
    (hinc : t.prev_tima_inc = false)
    (hifw : s.IF_written_this_cycle = false) :
    (s.timer_counter = t.prev_tima_val →
       (Timer.UpdateTimer s t).1.timer_counter = s.timer_modulo ∧
       (Timer.UpdateTimer s t).1.interrupt_flags = s.interrupt_flags ||| 0x04 ∧
       (Timer.UpdateTimer s t).2.tima_overflow = false ∧
       (Timer.UpdateTimer s t).2.tima_overflow_not_interrupted = true) ∧
    (s.timer_counter ≠ t.prev_tima_val →
       (Timer.UpdateTimer s t).1.timer_counter = s.timer_counter ∧
       (Timer.UpdateTimer s t).1.interrupt_flags = s.interrupt_flags ∧
       (Timer.UpdateTimer s t).2.tima_overflow = false ∧
       (Timer.UpdateTimer s t).2.tima_overflow_not_interrupted = false) := by
  obtain ⟨ov, ni, pv, pi⟩ := t
  have hov' : ov = true := hov
  have hni' : ni = false := hni
  have hinc' : pi = false := hinc
  subst hov'
  subst hni'
  subst hinc'
  have hcur : Memory.ReadMem8 (Memory.IncrementDIV s 4) 0xFF05 = s.timer_counter := rfl
  have hifw2 :
      (Timer.LoadTMAIntoTIMA (Memory.IncrementDIV s 4)).IF_written_this_cycle = false :=
    hifw
  constructor
  · intro h
    have h' : s.timer_counter = pv := h
    subst h'
    unfold Timer.UpdateTimer
    simp only [Timer.TIMAWasNotWritten, Timer.TIMAIncWentLow, Bool.false_eq_true,
      if_false, hcur, decide_eq_true_eq, if_true]
    simp only [Bool.and_false, Bool.false_eq_true, if_false]
    simp only [Memory.RequestInterrupt, hifw2, Bool.false_eq_true, if_false]
    exact ⟨rfl, rfl, trivial, trivial⟩
  · intro h
    have h' : s.timer_counter ≠ pv := h
    unfold Timer.UpdateTimer
    simp only [Timer.TIMAWasNotWritten, Timer.TIMAIncWentLow, Bool.false_eq_true,
      if_false, hcur, decide_eq_true_eq, if_true,
      if_neg (show ¬ (pv = s.timer_counter) from fun hh => h' hh.symm)]
    simp only [Bool.and_false, Bool.false_eq_true, if_false]
    exact ⟨rfl, rfl, trivial, trivial⟩

/-- C3 witness: with no TIMA write during the 0x00-holding cycle, the next
`UpdateTimer` loads TMA (0x42) into TIMA and requests the timer
interrupt. -/
theorem tima_overflow_reload_witness :
    (Timer.UpdateTimer overflowMem overflowTimer).1.timer_counter =
      overflowMem.timer_modulo ∧
    (Timer.UpdateTimer overflowMem overflowTimer).1.interrupt_flags =
      overflowMem.interrupt_flags ||| 0x04 :=
  ⟨((tima_overflow_reload overflowMem overflowTimer rfl rfl rfl rfl).1 rfl).1,
   ((tima_overflow_reload overflowMem overflowTimer rfl rfl rfl rfl).1 rfl).2.1⟩

/-- Write an I/O register and immediately read it back, with no
intervening operation (`Memory::WriteIORegisters` then
`Memory::ReadIORegisters` at the same address). -/
def WriteThenRead (s : Memory) (addr v : Nat) : Nat :=
  (s.WriteIORegisters addr v).ReadIORegisters addr

set_option maxRecDepth 8000 in
/-- Every byte masked to 8 bits is unchanged by `&&& 0xFF`. -/
theorem and255 : ∀ x < 256, x &&& 0xFF = x := by decide

set_option maxRecDepth 8000 in
/-- Every byte ORed with 0xFF gives 0xFF. -/
theorem or255 : ∀ x < 256, x ||| 0xFF = 0xFF := by decide

/-- A masked byte ORed with 0xFF gives 0xFF. -/
theorem orFF (v m : Nat) (hm : m < 256) : (v &&& m) ||| 0xFF = 0xFF :=
  or255 _ (lt_of_le_of_lt Nat.and_le_right hm)

/-- C4 counterexample: STAT (0xFF41) is writable (bits 3-6) but its
read-only low 3 bits are the live LCD mode, not fixed bits: no fixed
write-mask/read-only-bits pair describes write-then-read of STAT, because
the result depends on the prior `stat` value. -/
theorem stat_write_read_claim_false :
    ¬ ∃ m b : Nat, ∀ (s : Memory) (v : Nat), v < 256 →
        WriteThenRead s 0xFF41 v = (v &&& m) ||| b := by
  rintro ⟨m, b, hall⟩
  have h1 := hall baseMem 0 (by norm_num)
  have h2 := hall { baseMem with stat := 3 } 0 (by norm_num)
  rw [show WriteThenRead baseMem 0xFF41 0 = 0x80 from rfl] at h1
  rw [show WriteThenRead { baseMem with stat := 3 } 0xFF41 0 = 0x83 from rfl] at h2
  omega

/-- The mode-independent writable I/O registers with their write masks and
fixed read-only/open-bus OR bits: write-then-read of register `e.1`
returns `(v &&& e.2.1) ||| e.2.2`. -/
def ioTable : List (Nat × Nat × Nat) :=
  [(0xFF00, 0x30, 0xC0), (0xFF01, 0xFF, 0x00), (0xFF04, 0x00, 0x00),
   (0xFF05, 0xFF, 0x00), (0xFF06, 0xFF, 0x00), (0xFF07, 0x07, 0xF8),
   (0xFF0F, 0x1F, 0xE0), (0xFF10, 0x7F, 0x80), (0xFF11, 0xFF, 0x3F),
   (0xFF12, 0xFF, 0x00), (0xFF13, 0xFF, 0x00), (0xFF14, 0xC7, 0xBF),
   (0xFF16, 0xFF, 0x3F), (0xFF17, 0xFF, 0x00), (0xFF18, 0xFF, 0x00),
   (0xFF19, 0xC7, 0xBF), (0xFF1A, 0x80, 0x7F), (0xFF1B, 0xFF, 0x00),
   (0xFF1C, 0x60, 0x9F), (0xFF1D, 0xFF, 0x00), (0xFF1E, 0xC7, 0xBF),
   (0xFF20, 0x1F, 0xE0), (0xFF21, 0xFF, 0x00), (0xFF22, 0xFF, 0x00),
   (0xFF23, 0xC0, 0xBF), (0xFF24, 0xFF, 0x00), (0xFF25, 0xFF, 0x00),
   (0xFF26, 0x8F, 0x70),
   (0xFF30, 0xFF, 0x00), (0xFF31, 0xFF, 0x00), (0xFF32, 0xFF, 0x00),
   (0xFF33, 0xFF, 0x00), (0xFF34, 0xFF, 0x00), (0xFF35, 0xFF, 0x00),
   (0xFF36, 0xFF, 0x00), (0xFF37, 0xFF, 0x00), (0xFF38, 0xFF, 0x00),
   (0xFF39, 0xFF, 0x00), (0xFF3A, 0xFF, 0x00), (0xFF3B, 0xFF, 0x00),
   (0xFF3C, 0xFF, 0x00), (0xFF3D, 0xFF, 0x00), (0xFF3E, 0xFF, 0x00),
   (0xFF3F, 0xFF, 0x00),
   (0xFF40, 0xFF, 0x00), (0xFF42, 0xFF, 0x00), (0xFF43, 0xFF, 0x00),
   (0xFF45, 0xFF, 0x00), (0xFF46, 0xFF, 0x00), (0xFF47, 0xFF, 0x00),
   (0xFF48, 0xFF, 0x00), (0xFF49, 0xFF, 0x00), (0xFF4A, 0xFF, 0x00),
   (0xFF4B, 0xFF, 0x00),
   (0xFF51, 0xFF, 0xFF), (0xFF52, 0xF0, 0xFF), (0xFF53, 0x1F, 0xFF),
   (0xFF54, 0xF0, 0xFF)]

set_option maxHeartbeats 2000000 in
/-- C4 (amended): for every writable I/O register other than STAT, writing
byte `v` then reading back returns `(v AND the register's write mask) OR
its fixed read-only/open-bus bits`, with the mask and bits fixed per
register (for SC/KEY1/HDMA5/VBK/SVBK, fixed per game mode and console,
which are set once at cartridge load); for STAT (0xFF41) the read-only low
3 bits are the live LCD status, so write-then-read returns
`(v AND 0x78) OR (prior STAT AND 0x07) OR 0x80`. -/
theorem io_write_read_law (s : Memory) (v : Nat) (hv : v < 256) :
    (∀ e ∈ ioTable, WriteThenRead s e.1 v = (v &&& e.2.1) ||| e.2.2) ∧
    (s.game_mode = GameMode.DMG →
        WriteThenRead s 0xFF02 v = (v &&& 0x81) ||| 0x7E ∧
        WriteThenRead s 0xFF4D v = (v &&& 0x01) ||| 0xFF ∧
        WriteThenRead s 0xFF55 v = (v &&& 0xFF) ||| 0xFF) ∧
    (s.game_mode = GameMode.CGB →
        WriteThenRead s 0xFF02 v = (v &&& 0x83) ||| 0x7C ∧
        WriteThenRead s 0xFF4D v = (v &&& 0x01) ||| 0x7E ∧
        WriteThenRead s 0xFF55 v = (v &&& 0xFF) ||| 0x00 ∧
        (s.console = Console.CGB →
          WriteThenRead s 0xFF4F v = (v &&& 0x01) ||| 0xFE) ∧
        WriteThenRead s 0xFF70 v = (v &&& 0x07) ||| 0xF8) ∧
    WriteThenRead s 0xFF41 v = ((v &&& 0x78) ||| (s.stat &&& 0x07)) ||| 0x80 := by
  refine ⟨?_, ?_, ?_, rfl⟩
  · intro e he
    simp only [ioTable, List.mem_cons, List.not_mem_nil, or_false] at he
    rcases he with rfl|rfl|rfl|rfl|rfl|rfl|rfl|rfl|rfl|rfl|rfl|rfl|rfl|rfl|rfl|rfl|rfl|rfl|rfl|rfl|rfl|rfl|rfl|rfl|rfl|rfl|rfl|rfl|rfl|rfl|rfl|rfl|rfl|rfl|rfl|rfl|rfl|rfl|rfl|rfl|rfl|rfl|rfl|rfl|rfl|rfl|rfl|rfl|rfl|rfl|rfl|rfl|rfl|rfl|rfl|rfl|rfl|rfl <;> dsimp only <;>
      first
        | rfl
        | (rw [Nat.and_zero, Nat.zero_or]
           show (0 : Nat) >>> 8 = 0
           exact Nat.zero_shiftRight 8)
        | rw [orFF v 0xFF (by norm_num)]
        | rw [orFF v 0xF0 (by norm_num)]
        | rw [orFF v 0x1F (by norm_num)]
        | rw [and255 v hv, Nat.or_zero]
        | rw [and255 v hv]
    all_goals rfl
  · intro hm
    refine ⟨?_, ?_, ?_⟩ <;>
      simp [WriteThenRead, Memory.WriteIORegisters, Memory.ReadIORegisters, hm,
        and255 v hv, or255 v hv]
  · intro hm
    refine ⟨?_, ?_, ?_, ?_, ?_⟩
    · simp [WriteThenRead, Memory.WriteIORegisters, Memory.ReadIORegisters, hm]
    · simp [WriteThenRead, Memory.WriteIORegisters, Memory.ReadIORegisters, hm]
    · simp [WriteThenRead, Memory.WriteIORegisters, Memory.ReadIORegisters, hm,
        and255 v hv]
    · intro hc
      simp [WriteThenRead, Memory.WriteIORegisters, Memory.ReadIORegisters, hm, hc]
    · simp [WriteThenRead, Memory.WriteIORegisters, Memory.ReadIORegisters, hm]

/-- C4 witness: the register law applied at the joypad register P1 and at
STAT on a concrete state. -/
theorem io_write_read_law_witness :
    WriteThenRead baseMem 0xFF00 0x2A = (0x2A &&& 0x30) ||| 0xC0 ∧
    WriteThenRead baseMem 0xFF41 0x2A =
      ((0x2A &&& 0x78) ||| (baseMem.stat &&& 0x07)) ||| 0x80 :=
  ⟨(io_write_read_law baseMem 0x2A (by norm_num)).1 (0xFF00, 0x30, 0xC0)
      (by simp [ioTable]),
   (io_write_read_law baseMem 0x2A (by norm_num)).2.2.2⟩

end Chroma
